import Mathlib

/-
Verification of the request-batching adapter in
packages/data-controls/src/index.js: the fetch-control dispatcher
(controls.API_FETCH), the batch processor, and the processor
registration guard, embedded shallowly. Request bodies and response
bodies are opaque to the adapter, so the embedding is parametric in
their types.
-/

/-- Descriptor of a single api request, the argument object of apiFetch.
The body field data is opaque to the adapter, hence the type parameter.
The batchAs tag is optional; the source tests it for JS truthiness, so
it is modelled as an optional string where none and the empty string
are the falsy values. -/
structure Request (α : Type) where
  path : String
  method : String
  data : α
  headers : List (String × String)
  batchAs : Option String
  deriving DecidableEq, Repr

/-- Control descriptor returned by apiFetch: a tagged wrapper around the
request. -/
structure ControlAction (α : Type) where
  type : String
  request : Request α
  deriving DecidableEq, Repr

/-- Embedding of the exported apiFetch function: wraps the request in an
object with type API_FETCH, the request itself stored unchanged. -/
def apiFetch (request : Request α) : ControlAction α :=
  ⟨"API_FETCH", request⟩

/-- Truthiness of the optional batchAs tag, as JS sees the value in the
test of the dispatcher: absent and empty string are falsy. -/
def jsTruthy : Option String → Bool
  | none => false
  | some s => !s.isEmpty

/-- Embedding of endpointSupportsBatch: the path qualifies when it
contains the substring /v2/template-parts, the source checks
path.indexOf of that literal against -1. splitOn yields more than one
piece exactly when the separator occurs in the path. -/
def endpointSupportsBatch (path : String) : Bool :=
  (path.splitOn "/v2/template-parts").length != 1

/-- Calls made against the shared transaction registry, the observable
effects of the dispatcher and of the registration guard. -/
inductive RegistryCall (α : Type) where
  | registerProcessor (effectType : String)
  | enqueueItemAndAutocommit (effectType : String) (groupId : String) (request : Request α)
  deriving DecidableEq, Repr

/-- Embedding of the module-level flag at line 132 of the source. The
source declares it with const and never assigns it, so it is the
constant false for the whole process lifetime. -/
def registered : Bool := false

/-- Registry calls one invocation of registerBatchProcessor makes, as a
function of the guard flag it reads: an early return when the flag is
set, otherwise one registerProcessor call. The source never updates the
flag. -/
def registerBatchProcessorCalls (flag : Bool) : List (RegistryCall α) :=
  if flag then [] else [RegistryCall.registerProcessor "API_FETCH"]

/-- Registry calls accumulated by n successive invocations of
registerBatchProcessor. Each invocation reads the module-level flag,
which stays at its initial value false because the source declares it
const and contains no assignment to it. -/
def registerBatchProcessorRun : Nat → List (RegistryCall Unit)
  | 0 => []
  | Nat.succ n => registerBatchProcessorRun n ++ registerBatchProcessorCalls registered

/-- Observable steps taken by the dispatcher for one request: either a
direct network fetch of the request, or a call against the registry. -/
inductive DispatchStep (α : Type) where
  | triggerFetch (request : Request α)
  | registryCall (call : RegistryCall α)
  deriving DecidableEq, Repr

/-- Embedding of the dispatcher controls.API_FETCH as the sequence of
observable steps it takes on one request: when the method is not one of
POST, PUT, PATCH, DELETE, or batchAs is falsy, or the path does not
support batching, a single direct fetch; otherwise the registry calls
of registerBatchProcessor followed by enqueueItemAndAutocommit with
effect type API_FETCH and the static group id abc. -/
def apiFetchControl (request : Request α) : List (DispatchStep α) :=
  if !(["POST", "PUT", "PATCH", "DELETE"].contains request.method)
      || !jsTruthy request.batchAs
      || !endpointSupportsBatch request.path then
    [DispatchStep.triggerFetch request]
  else
    (registerBatchProcessorCalls registered).map DispatchStep.registryCall
      ++ [DispatchStep.registryCall
            (RegistryCall.enqueueItemAndAutocommit "API_FETCH" "abc" request)]

/-- Transaction handle surfaced by the external batch-processing store:
the adapter only reads its state field, compared against the error
sentinel. -/
structure Transaction where
  state : String
  deriving DecidableEq, Repr

/-- Error sentinel imported from the batch-processing package; the
adapter only compares transaction states against it, so its concrete
value is a distinguished string. -/
def TRANSACTION_ERROR : String := "TRANSACTION_ERROR"

/-- Wire shape of one sub-request inside the combined batch call: the
projection of a request descriptor built at lines 157 to 162 of the
source, body holding the data field of the descriptor. -/
structure WireRequest (α : Type) where
  path : String
  body : α
  method : String
  headers : List (String × String)
  deriving DecidableEq, Repr

/-- Projection of a request descriptor into the wire request shape, the
mapping applied to each enqueued request by the batch processor. -/
def projectWireRequest (options : Request α) : WireRequest α :=
  ⟨options.path, options.data, options.method, options.headers⟩

/-- Body of the combined batch call: the validation mode literal and the
projected sub-requests in order. -/
structure BatchBody (α : Type) where
  validation : String
  requests : List (WireRequest α)
  deriving DecidableEq, Repr

/-- Argument object of the one combined triggerFetch call the batch
processor issues. -/
structure BatchFetchOptions (α : Type) where
  path : String
  method : String
  data : BatchBody α
  deriving DecidableEq, Repr

/-- One item of the batch endpoint response; the processor reads only
the body field, the wire contract also carries status and headers. -/
structure BatchResponseItem (β : Type) where
  body : β
  status : Nat
  headers : List (String × String)
  deriving DecidableEq, Repr

/-- Response of the batch endpoint: the batch-level failed flag and the
positionally aligned response items. -/
structure BatchResponse (β : Type) where
  failed : Bool
  responses : List (BatchResponseItem β)
  deriving DecidableEq, Repr

/-- Nested data field of the transaction-failed error object. -/
structure ApiErrorData where
  status : Nat
  deriving DecidableEq, Repr

/-- Shape of the error object thrown when the transaction is already in
the error state: code, nested data with a status, and a message. -/
structure ApiErrorObject where
  code : String
  data : ApiErrorData
  message : String
  deriving DecidableEq, Repr

/-- Rejection payloads of the batch processor: the fixed error object of
the transaction-error short circuit, or the ordered response bodies when
the batch-level failed flag is set. -/
inductive BatchFailure (β : Type) where
  | errorObject (e : ApiErrorObject)
  | responseBodies (bodies : List β)
  deriving DecidableEq, Repr

/-- Embedding of batchProcessor. The network is modelled by passing in
the response the combined fetch would produce; the first component of
the result is the list of combined fetch calls actually issued, the
second the settled outcome. When the transaction state equals the error
sentinel the processor throws the fixed transaction-failed object and
issues no fetch; otherwise it issues exactly one combined call and maps
the response items to their bodies, as a rejection when failed is set
and as the resolved value otherwise. -/
def batchProcessor (requests : List (Request α)) (transaction : Transaction)
    (response : BatchResponse β) :
    List (BatchFetchOptions α) × Except (BatchFailure β) (List β) :=
  if transaction.state = TRANSACTION_ERROR then
    ([], Except.error (BatchFailure.errorObject
      ⟨"transaction_failed", ⟨500⟩, "Transaction failed."⟩))
  else
    let call : BatchFetchOptions α :=
      ⟨"/__experimental/batch", "POST",
        ⟨"require-all-validate", requests.map projectWireRequest⟩⟩
    if response.failed then
      ([call], Except.error (BatchFailure.responseBodies
        (response.responses.map BatchResponseItem.body)))
    else
      ([call], Except.ok (response.responses.map BatchResponseItem.body))

/-- Modelled from the spec: the inverse direction of the round-trip
property of section 8, mapping the wire request shape back to a request
descriptor. The source only contains the forward projection; the spec
round-trip asks that path, method and body content survive. The batchAs
tag has no wire counterpart and comes back absent. -/
def wireToDescriptor (w : WireRequest α) : Request α :=
  ⟨w.path, w.method, w.body, w.headers, none⟩

/-- Sample request descriptor with a batch-eligible path, a mutating
method and a present batchAs tag, used to instantiate theorems with
hypotheses at concrete inputs. -/
def sampleRequest : Request Nat :=
  ⟨"/wp/v2/template-parts/17", "POST", 5, [("X-Count", "1")], some "templates"⟩

/-- Second sample request descriptor. -/
def sampleRequestB : Request Nat :=
  ⟨"/wp/v2/template-parts/18", "PUT", 6, [], some "templates"⟩

/-- Transaction whose state is the error sentinel. -/
def sampleErrorTransaction : Transaction :=
  ⟨TRANSACTION_ERROR⟩

/-- Transaction in a non-error state. -/
def sampleNewTransaction : Transaction :=
  ⟨"STATE_NEW"⟩

/-- Successful batch response with two items. -/
def sampleOkResponse : BatchResponse Nat :=
  ⟨false, [⟨7, 200, []⟩, ⟨8, 201, []⟩]⟩

/-- Failed batch response with two items. -/
def sampleFailedResponse : BatchResponse Nat :=
  ⟨true, [⟨9, 400, []⟩, ⟨10, 400, []⟩]⟩

/-- Successful batch response with no items. -/
def sampleEmptyResponse : BatchResponse Nat :=
  ⟨false, []⟩

/-- C1: the claim states that of N greater than one successive calls to
registerBatchProcessor only the first makes a registerProcessor call,
the process-wide flag being set true by the first call. Evaluating the
embedded code on two successive calls from process start yields two
registerProcessor calls, because the flag is declared const false at
line 132 of the source and nothing ever sets it, so the guard never
suppresses a registration. -/
theorem C1_guard_registers_on_every_call :
    registerBatchProcessorRun 2 =
      [RegistryCall.registerProcessor "API_FETCH",
       RegistryCall.registerProcessor "API_FETCH"] ∧
    (registerBatchProcessorRun 2).length = 2 := by
  exact ⟨rfl, rfl⟩

/-- C2: the dispatcher enqueues the request via the registry, tagged with
effect type API_FETCH and the static group id abc and preceded by the
registration call of the unguarded registerBatchProcessor, exactly when
the method is one of POST, PUT, PATCH, DELETE, batchAs is truthy and the
path supports batching; in every other case its trace is a single direct
fetch, touching the registry in no way. -/
theorem C2_dispatcher_routing (α : Type) (r : Request α) :
    (apiFetchControl r =
        [DispatchStep.registryCall (RegistryCall.registerProcessor "API_FETCH"),
         DispatchStep.registryCall
           (RegistryCall.enqueueItemAndAutocommit "API_FETCH" "abc" r)]
      ↔ (["POST", "PUT", "PATCH", "DELETE"].contains r.method = true ∧
          jsTruthy r.batchAs = true ∧ endpointSupportsBatch r.path = true)) ∧
    (apiFetchControl r = [DispatchStep.triggerFetch r]
      ↔ ¬ (["POST", "PUT", "PATCH", "DELETE"].contains r.method = true ∧
            jsTruthy r.batchAs = true ∧ endpointSupportsBatch r.path = true)) := by
  cases hm : ["POST", "PUT", "PATCH", "DELETE"].contains r.method <;>
    cases hb : jsTruthy r.batchAs <;>
      cases hp : endpointSupportsBatch r.path <;>
        simp_all [apiFetchControl, registerBatchProcessorCalls, registered]

/-- C3: when the transaction state equals the error sentinel, the batch
processor rejects with the fixed transaction-failed error object, code
transaction_failed with nested status 500 and message Transaction
failed., and its network trace is empty. -/
theorem C3_transaction_error_short_circuit (α β : Type)
    (requests : List (Request α)) (t : Transaction) (response : BatchResponse β)
    (h : t.state = TRANSACTION_ERROR) :
    batchProcessor requests t response =
      ([], Except.error (BatchFailure.errorObject
        ⟨"transaction_failed", ⟨500⟩, "Transaction failed."⟩)) := by
  simp [batchProcessor, h]

/-- Concrete instance of the transaction-error short circuit. -/
theorem C3_transaction_error_witness :
    sampleErrorTransaction.state = TRANSACTION_ERROR ∧
    batchProcessor [sampleRequest] sampleErrorTransaction sampleOkResponse =
      ([], Except.error (BatchFailure.errorObject
        ⟨"transaction_failed", ⟨500⟩, "Transaction failed."⟩)) :=
  ⟨rfl, C3_transaction_error_short_circuit Nat Nat [sampleRequest]
    sampleErrorTransaction sampleOkResponse rfl⟩

/-- C4: when the transaction is not in the error state, the batch
processor issues exactly one combined fetch call, method POST to the
batch endpoint path, whose body carries the require-all-validate
literal and the input requests projected to the wire shape in input
order. -/
theorem C4_combined_call_shape (α β : Type)
    (requests : List (Request α)) (t : Transaction) (response : BatchResponse β)
    (h : ¬ t.state = TRANSACTION_ERROR) :
    (batchProcessor requests t response).1 =
      [⟨"/__experimental/batch", "POST",
         ⟨"require-all-validate", requests.map projectWireRequest⟩⟩] := by
  cases hf : response.failed <;> simp [batchProcessor, h, hf]

/-- Concrete instance of the combined-call shape. -/
theorem C4_combined_call_witness :
    ¬ sampleNewTransaction.state = TRANSACTION_ERROR ∧
    (batchProcessor [sampleRequest, sampleRequestB] sampleNewTransaction
        sampleOkResponse).1 =
      [⟨"/__experimental/batch", "POST",
         ⟨"require-all-validate",
           [sampleRequest, sampleRequestB].map projectWireRequest⟩⟩] :=
  ⟨by decide, C4_combined_call_shape Nat Nat [sampleRequest, sampleRequestB]
    sampleNewTransaction sampleOkResponse (by decide)⟩

/-- C5: when the transaction is not in the error state and the response
failed flag is false, the batch processor resolves to the response item
bodies in response order. -/
theorem C5_success_resolves_bodies (α β : Type)
    (requests : List (Request α)) (t : Transaction) (response : BatchResponse β)
    (h : ¬ t.state = TRANSACTION_ERROR) (hf : response.failed = false) :
    (batchProcessor requests t response).2 =
      Except.ok (response.responses.map BatchResponseItem.body) := by
  simp [batchProcessor, h, hf]

/-- Concrete instance of the success resolution. -/
theorem C5_success_witness :
    (¬ sampleNewTransaction.state = TRANSACTION_ERROR ∧
      sampleOkResponse.failed = false) ∧
    (batchProcessor [sampleRequest, sampleRequestB] sampleNewTransaction
        sampleOkResponse).2 = Except.ok [7, 8] :=
  ⟨⟨by decide, rfl⟩,
    C5_success_resolves_bodies Nat Nat [sampleRequest, sampleRequestB]
      sampleNewTransaction sampleOkResponse (by decide) rfl⟩

/-- C6: when the transaction is not in the error state and the response
failed flag is true, the batch processor rejects with the response item
bodies in response order, after exactly one combined fetch call and with
no retry. -/
theorem C6_failed_rejects_bodies (α β : Type)
    (requests : List (Request α)) (t : Transaction) (response : BatchResponse β)
    (h : ¬ t.state = TRANSACTION_ERROR) (hf : response.failed = true) :
    batchProcessor requests t response =
      ([⟨"/__experimental/batch", "POST",
          ⟨"require-all-validate", requests.map projectWireRequest⟩⟩],
       Except.error (BatchFailure.responseBodies
         (response.responses.map BatchResponseItem.body))) := by
  simp [batchProcessor, h, hf]

/-- Concrete instance of the failed-batch rejection. -/
theorem C6_failed_rejects_witness :
    (¬ sampleNewTransaction.state = TRANSACTION_ERROR ∧
      sampleFailedResponse.failed = true) ∧
    batchProcessor [sampleRequest, sampleRequestB] sampleNewTransaction
        sampleFailedResponse =
      ([⟨"/__experimental/batch", "POST",
          ⟨"require-all-validate",
            [sampleRequest, sampleRequestB].map projectWireRequest⟩⟩],
       Except.error (BatchFailure.responseBodies [9, 10])) :=
  ⟨⟨by decide, rfl⟩,
    C6_failed_rejects_bodies Nat Nat [sampleRequest, sampleRequestB]
      sampleNewTransaction sampleFailedResponse (by decide) rfl⟩

/-- C7: when the transaction is not in the error state and the response
holds as many items as there are requests, the settled payload of the
batch processor, the resolved list on success and the rejected body list
on failure, has the length of the input request list. -/
theorem C7_output_length_matches_input (α β : Type)
    (requests : List (Request α)) (t : Transaction) (response : BatchResponse β)
    (h : ¬ t.state = TRANSACTION_ERROR)
    (hlen : response.responses.length = requests.length) :
    ∃ bodies : List β, bodies.length = requests.length ∧
      ((batchProcessor requests t response).2 = Except.ok bodies ∨
       (batchProcessor requests t response).2 =
         Except.error (BatchFailure.responseBodies bodies)) := by
  refine ⟨response.responses.map BatchResponseItem.body, by simp [hlen], ?_⟩
  cases hf : response.failed
  · exact Or.inl (by simp [batchProcessor, h, hf])
  · exact Or.inr (by simp [batchProcessor, h, hf])

/-- Concrete instance of the length invariant. -/
theorem C7_output_length_witness :
    (¬ sampleNewTransaction.state = TRANSACTION_ERROR ∧
      sampleOkResponse.responses.length = [sampleRequest, sampleRequestB].length) ∧
    ∃ bodies : List Nat, bodies.length = [sampleRequest, sampleRequestB].length ∧
      ((batchProcessor [sampleRequest, sampleRequestB] sampleNewTransaction
          sampleOkResponse).2 = Except.ok bodies ∨
       (batchProcessor [sampleRequest, sampleRequestB] sampleNewTransaction
          sampleOkResponse).2 =
         Except.error (BatchFailure.responseBodies bodies)) :=
  ⟨⟨by decide, rfl⟩,
    C7_output_length_matches_input Nat Nat [sampleRequest, sampleRequestB]
      sampleNewTransaction sampleOkResponse (by decide) rfl⟩

/-- C8: projecting a request descriptor to the wire request shape and
mapping it back preserves path, method and body content. -/
theorem C8_wire_projection_round_trip (α : Type) (r : Request α) :
    (wireToDescriptor (projectWireRequest r)).path = r.path ∧
    (wireToDescriptor (projectWireRequest r)).method = r.method ∧
    (wireToDescriptor (projectWireRequest r)).data = r.data :=
  ⟨rfl, rfl, rfl⟩

/-- C9: apiFetch returns exactly the object with type API_FETCH and the
request stored unchanged. -/
theorem C9_apiFetch_wraps_request (α : Type) (r : Request α) :
    apiFetch r = ⟨"API_FETCH", r⟩ ∧
    (apiFetch r).type = "API_FETCH" ∧ (apiFetch r).request = r :=
  ⟨rfl, rfl, rfl⟩

/-- C10: on the empty request list with a transaction not in the error
state the batch processor has no empty-batch short circuit: it still
issues the combined fetch with an empty requests array, and with a
non-failed empty response resolves to the empty list. -/
theorem C10_empty_batch_still_fetches (α β : Type)
    (t : Transaction) (response : BatchResponse β)
    (h : ¬ t.state = TRANSACTION_ERROR) (hf : response.failed = false)
    (hr : response.responses = []) :
    batchProcessor ([] : List (Request α)) t response =
      ([⟨"/__experimental/batch", "POST", ⟨"require-all-validate", []⟩⟩],
       Except.ok ([] : List β)) := by
  simp [batchProcessor, h, hf, hr]

/-- Concrete instance of the empty-batch behaviour. -/
theorem C10_empty_batch_witness :
    (¬ sampleNewTransaction.state = TRANSACTION_ERROR ∧
      sampleEmptyResponse.failed = false ∧ sampleEmptyResponse.responses = []) ∧
    batchProcessor ([] : List (Request Nat)) sampleNewTransaction
        sampleEmptyResponse =
      ([⟨"/__experimental/batch", "POST", ⟨"require-all-validate", []⟩⟩],
       Except.ok ([] : List Nat)) :=
  ⟨⟨by decide, rfl, rfl⟩,
    C10_empty_batch_still_fetches Nat Nat sampleNewTransaction
      sampleEmptyResponse (by decide) rfl rfl⟩
